import Mathlib

/-!
Shallow embedding of the resource-allocation and status-transition core of the
Mero Samaj community-coordination app (a React/Firestore single-page app).

The embedded operations are the Firestore-writing handlers of the source:

* `handleSignUp`, `handleCancelSignUp`, `handleClaimFood` from
  `src/pages/Volunteer.tsx` (lines 273-364 of the concatenated `src/src/App.tsx`);
* `markDonationUnavailable`, `handleVerification` and the dashboard fetch
  queries from the role dashboard (`src/unnamed/part_001`);
* `updateDonationCount` from `src/pages/Success.tsx`;
* `fetchData` from `src/components/dashboard/NgoIssuesView.tsx`.

Modelling conventions:

* Firestore documents are Lean structures with every field of the source
  TypeScript interfaces; optional fields are `Option`.  Firestore `Timestamp`
  values (and `serverTimestamp()` results) are `Nat`; the JS `number` fields
  that the handlers compare or add (`spots`, `quantity`, payment amounts) are
  `Nat`/`Int`.  The display-only `latitude`/`longitude` numbers of an Issue are
  embedded as `Option Int` (only their presence ever matters in the source).
* `arrayUnion`/`arrayRemove`/`increment` field operators are modelled by the
  corresponding pure list/integer operations applied to the current document.
* A Firestore `orderBy(k, "desc")` is modelled with `List.insertionSort`
  under the relation `b.k ≤ a.k` (a sort of the matching documents descending
  in `k`), and `limit(n)` with `List.take n`.
* Each handler is a pure function from its inputs (the React state it read,
  the current store document) to the outcome and the written document.
  A handler that can throw or early-return is given an explicit result type
  whose constructors are exactly the control-flow exits of the source.
-/

namespace MeroSamaj

/-- Firestore `arrayUnion(x)` on an array field: appends `x` when absent,
leaves the array unchanged when present. -/
def arrayUnion (x : String) (l : List String) : List String :=
  if x ∈ l then l else l ++ [x]

/-- Firestore `arrayRemove(x)` on an array field: removes every occurrence. -/
def arrayRemove (x : String) (l : List String) : List String :=
  l.filter (fun y => y != x)

/-- Opportunity status values `"open" | "full" | "closed"`
(`Opportunity.status` in `Volunteer.tsx`); `open'` stands for `"open"`. -/
inductive OppStatus where
  | open'
  | full
  | closed
deriving DecidableEq

/-- The `Opportunity` interface of `Volunteer.tsx` (lines 137-151). -/
structure Opportunity where
  id : String
  title : String
  description : String
  category : String
  location : String
  date : String
  time : String
  spots : Nat
  orgId : String
  orgName : String
  createdAt : Nat
  status : OppStatus
  signedUpVolunteers : List String
deriving DecidableEq

/-- Control-flow exits of `handleSignUp` (`Volunteer.tsx` 273-301): the two
toast-and-return guards, or the `updateDoc` commit with its payload
(`arrayUnion(user.uid)` plus an optional `status: "full"`).  The source has no
other outcome: in particular there is no conflict/retry exit. -/
inductive SignUpStep where
  | alreadySignedUp
  | fullRejected
  | commit (addVolunteer : String) (setFull : Bool)
deriving DecidableEq

/-- `handleSignUp(opportunityId, currentSpots, signedUpVolunteers)` guards and
payload computation (`Volunteer.tsx` 276-286), as a function of the caller
`uid` and the read state it was invoked with.  The source checks
`signedUpVolunteers.includes(user.uid)`, then
`signedUpVolunteers.length >= currentSpots`, then builds the payload and sets
`status: "full"` when `signedUpVolunteers.length + 1 >= currentSpots`. -/
def handleSignUp (uid : String) (currentSpots : Nat) (signedUpVolunteers : List String) :
    SignUpStep :=
  if uid ∈ signedUpVolunteers then .alreadySignedUp
  else if currentSpots ≤ signedUpVolunteers.length then .fullRejected
  else .commit uid (decide (currentSpots ≤ signedUpVolunteers.length + 1))

/-- Effect of the `updateDoc` commit of `handleSignUp` (`Volunteer.tsx` 289) on
the current store document: `arrayUnion` on `signedUpVolunteers`, and
`status := "full"` exactly when the payload carried it. -/
def applySignUpPayload (addVolunteer : String) (setFull : Bool) (o : Opportunity) :
    Opportunity :=
  { o with
    signedUpVolunteers := arrayUnion addVolunteer o.signedUpVolunteers
    status := if setFull then .full else o.status }

/-- The store write performed by one `handleSignUp` call: `none` when a guard
fired (no `updateDoc`), otherwise the document after the unconditional
`updateDoc`, applied to whatever the store currently holds (the source does
not re-read and places no precondition on the write). -/
def signUpWrite (uid : String) (currentSpots : Nat) (readSignedUp : List String)
    (store : Opportunity) : Option Opportunity :=
  match handleSignUp uid currentSpots readSignedUp with
  | .commit v f => some (applySignUpPayload v f store)
  | _ => none

/-- `handleCancelSignUp` (`Volunteer.tsx` 303-325): a single unconditional
`updateDoc` with `arrayRemove(user.uid)` and `status: "open"`.  The source has
no membership check and no failure exit besides a thrown store error. -/
def handleCancelSignUp (uid : String) (o : Opportunity) : Opportunity :=
  { o with
    signedUpVolunteers := arrayRemove uid o.signedUpVolunteers
    status := .open' }

/-- One volunteer-initiated operation on an opportunity, without its read
state (used for the fresh-read restriction `runOps` below). -/
inductive OppOp where
  | signUp (uid : String)
  | cancelSignUp (uid : String)
deriving DecidableEq

/-- One handler invocation together with the page state it read:
`signUpWith uid readSpots readSignedUp` is a `handleSignUp` call whose guards
and payload are computed from the given fetched copy.  This is the general
semantics of the source call site — the sign-up button (`Volunteer.tsx` 642)
passes `opportunity.spots` and `opportunity.signedUpVolunteers` from the React
state fetched at mount, so the copy can be stale relative to the store
document the `updateDoc` then hits.  `cancelSignUp` reads nothing. -/
inductive OppCall where
  | signUpWith (uid : String) (readSpots : Nat) (readSignedUp : List String)
  | cancelSignUp (uid : String)
deriving DecidableEq

/-- Execution of one invocation against the current store document: the
guards run on the recorded read state, the write (if any) lands on the
current document.  A guard exit leaves the document unchanged. -/
def oppCallStep (o : Opportunity) (c : OppCall) : Opportunity :=
  match c with
  | .signUpWith uid readSpots readSignedUp =>
      match signUpWrite uid readSpots readSignedUp o with
      | some o2 => o2
      | none => o
  | .cancelSignUp uid => handleCancelSignUp uid o

/-- Execution of a list of invocations, oldest first, each acting on the
store left by its predecessors while using its own recorded read state. -/
def runCalls (o : Opportunity) (cs : List OppCall) : Opportunity :=
  cs.foldl oppCallStep o

/-- The fresh-read restriction of `oppCallStep`: the handler is invoked with
the current document itself as its read.  This is the special case of the
source semantics in which the fetched copy happens to be up to date; the
general (possibly stale) case is `oppCallStep`. -/
def oppStep (o : Opportunity) (op : OppOp) : Opportunity :=
  match op with
  | .signUp uid =>
      match signUpWrite uid o.spots o.signedUpVolunteers o with
      | some o2 => o2
      | none => o
  | .cancelSignUp uid => handleCancelSignUp uid o

/-- The invocation, with its read state, that `oppStep` performs on `o`. -/
def freshCall (o : Opportunity) : OppOp → OppCall
  | .signUp uid => .signUpWith uid o.spots o.signedUpVolunteers
  | .cancelSignUp uid => .cancelSignUp uid

/-- Sequential fresh-read execution of a list of operations, oldest first. -/
def runOps (o : Opportunity) (ops : List OppOp) : Opportunity :=
  ops.foldl oppStep o

/-- Food-donation status values `"available" | "claimed" | "unavailable"`
(`FoodDonation.status` in `src/unnamed/part_001` lines 44-59). -/
inductive DonStatus where
  | available
  | claimed
  | unavailable
deriving DecidableEq

/-- The `FoodDonation` interface (union of the fields of `Volunteer.tsx`
153-169 and `src/unnamed/part_001` 44-59). -/
structure FoodDonation where
  id : String
  restaurantId : String
  restaurantName : String
  foodType : String
  quantity : String
  pickupLocation : String
  pickupInstructions : Option String
  bestBefore : Option Nat
  status : DonStatus
  createdAt : Nat
  claimedByVolunteerId : Option String
  volunteerName : Option String
  claimedAt : Option Nat
  volunteerPickupNotes : Option String
  volunteerPhoneNumber : Option String
deriving DecidableEq

/-- Control-flow exits of `handleClaimFood` (`Volunteer.tsx` 329-364):
the single thrown error "This donation is no longer available or does not
exist." (raised both for a missing document and for a non-available status,
before any write), or the `updateDoc` commit carrying the written document. -/
inductive ClaimResult where
  | notAvailable
  | claimed (written : FoodDonation)
deriving DecidableEq

/-- `handleClaimFood(donationId, notes, phoneNumber)` (`Volunteer.tsx`
329-364).  `store` is the fresh `getDoc` read (`none` when the document does
not exist); `claimantName` stands for the
`userProfile?.name || user.displayName || user.email || "Unknown Volunteer"` fallback chain of the source
; `now` is the `serverTimestamp()` assigned at commit.  The
source throws when `!donationSnap.exists() || status !== "available"` and
otherwise commits `status`, `claimedByVolunteerId`, `volunteerName`,
`claimedAt`, `volunteerPickupNotes` and `volunteerPhoneNumber`. -/
def handleClaimFood (uid claimantName notes phone : String) (now : Nat)
    (store : Option FoodDonation) : ClaimResult :=
  match store with
  | none => .notAvailable
  | some d =>
      if d.status = .available then
        .claimed { d with
          status := .claimed
          claimedByVolunteerId := some uid
          volunteerName := some claimantName
          claimedAt := some now
          volunteerPickupNotes := some notes
          volunteerPhoneNumber := some phone }
      else .notAvailable

/-- The store write performed by one `handleClaimFood` call: `none` on the
thrown error (the source writes nothing in that case), the written document
otherwise. -/
def claimWrite : ClaimResult → Option FoodDonation
  | .notAvailable => none
  | .claimed d => some d

/-- `markDonationUnavailable` (`src/unnamed/part_001` 223-237): one
unconditional `updateDoc(donationRef, ( status: "unavailable" ))`.  The source
reads nothing from the document first and takes no caller identity: it has no
owner check and no status check. -/
def markDonationUnavailable (d : FoodDonation) : FoodDonation :=
  { d with status := .unavailable }

/-- The own-donation fetch of the restaurant dashboard (`src/unnamed/part_001`
159-181): `where("restaurantId", "==", user.uid)`,
`orderBy("createdAt", "desc")`, `limit(50)`. -/
def fetchMyDonations (uid : String) (docs : List FoodDonation) : List FoodDonation :=
  (List.insertionSort (fun a b => b.createdAt ≤ a.createdAt)
    (docs.filter (fun d => d.restaurantId == uid))).take 50

/-- The `availableDonations` filter of the dashboard (`src/unnamed/part_001` 260):
the only donations that render a "Mark as Unavailable" button. -/
def availableDonations (l : List FoodDonation) : List FoodDonation :=
  l.filter (fun d => d.status == DonStatus.available)

/-- Food-request status values `"pending" | "accepted" | "rejected"`
(`FoodRequest.status` in `src/unnamed/part_001` 61-70). -/
inductive ReqStatus where
  | pending
  | accepted
  | rejected
deriving DecidableEq

/-- The decision parameter of `handleVerification`, typed in the source as
`status: "accepted" | "rejected"` (`src/unnamed/part_001` 201). -/
inductive VerDecision where
  | accepted
  | rejected
deriving DecidableEq

/-- The request status written for a verification decision. -/
def VerDecision.toStatus : VerDecision → ReqStatus
  | .accepted => .accepted
  | .rejected => .rejected

/-- The `FoodRequest` interface (`src/unnamed/part_001` 61-70) together with
the `restaurantId`, `restaurantName` and `updatedAt` fields that
`handleVerification` adds to the stored document. -/
structure FoodRequest where
  id : String
  ngoId : String
  foodType : String
  quantity : Nat
  description : String
  status : ReqStatus
  createdAt : Nat
  ngoName : Option String
  restaurantId : Option String
  restaurantName : Option String
  updatedAt : Option Nat
deriving DecidableEq

/-- `handleVerification(requestId, status)` (`src/unnamed/part_001` 201-220
and `RestaurantDashboard.tsx` 144-162): one unconditional `updateDoc` writing
the decided status, `restaurantId: user.uid`, `restaurantName` and
`updatedAt: serverTimestamp()`.  The source reads nothing from the document
first: there is no check that the request is still pending. -/
def handleVerification (uid uname : String) (dec : VerDecision) (now : Nat)
    (r : FoodRequest) : FoodRequest :=
  { r with
    status := dec.toStatus
    restaurantId := some uid
    restaurantName := some uname
    updatedAt := some now }

/-- The pending-request fetch of the dashboard (`src/unnamed/part_001` 140):
`where("status", "==", "pending")`, `orderBy("createdAt", "desc")`,
`limit(15)`.  Only requests returned by this query render Accept/Reject
buttons. -/
def fetchRequests (docs : List FoodRequest) : List FoodRequest :=
  (List.insertionSort (fun a b => b.createdAt ≤ a.createdAt)
    (docs.filter (fun r => r.status == ReqStatus.pending))).take 15

/-- The `updateStatus` component state of `Success.tsx` (line 18). -/
inductive UpdateStatus where
  | idle
  | pending
  | success
  | error
deriving DecidableEq

/-- `updateDonationCount` of `Success.tsx` (lines 49-134) as a function from
the component and query-parameter inputs and the current `totalDonated` of the user
to the resulting `updateStatus` and `totalDonated`.  `user` is the signed-in
uid; `amount` is `Number(amountStr)` with `none` standing for a missing or
non-numeric `amount` parameter.  The source returns untouched when auth is
loading, no user is present, or `updateStatus` is not `"idle"`; errors out on
a missing `session_id`, a missing/NaN amount, or `amount <= 0`; and otherwise
performs the single atomic `increment(amount)` on `totalDonated`.  The
`session_id` value is never compared against any record of processed
sessions. -/
def updateDonationCount (authLoading : Bool) (user : Option String)
    (updateStatus : UpdateStatus) (sessionId : Option String) (amount : Option Int)
    (totalDonated : Int) : UpdateStatus × Int :=
  if authLoading = true ∨ user = none ∨ updateStatus ≠ .idle then
    (updateStatus, totalDonated)
  else
    match sessionId with
    | none => (.error, totalDonated)
    | some _ =>
        match amount with
        | none => (.error, totalDonated)
        | some a =>
            if a ≤ 0 then (.error, totalDonated)
            else (.success, totalDonated + a)

/-- Issue status values `"pending" | "in-progress" | "resolved"`
(`NgoIssuesView.tsx` 32). -/
inductive IssueStatus where
  | pending
  | inProgress
  | resolved
deriving DecidableEq

/-- The `Issue` interface of `NgoIssuesView.tsx` (lines 23-36). -/
structure Issue where
  id : String
  title : String
  description : String
  category : String
  location : String
  imageUrl : Option String
  reporterId : String
  timestamp : Nat
  status : IssueStatus
  latitude : Option Int
  longitude : Option Int
  updatedAt : Option Nat
deriving DecidableEq

/-- The `NgoProfileData` interface of `NgoIssuesView.tsx` (lines 38-41). -/
structure NgoProfileData where
  focusAreas : Option (List String)
  orgName : Option String
deriving DecidableEq

/-- Control-flow exits of `fetchData` in `NgoIssuesView.tsx` (lines 74-156):
the profile-not-found error return (line 92-97), the distinct
no-focus-areas early return (lines 100-107), or the executed issue query. -/
inductive FetchOutcome where
  | profileMissing
  | noFocusAreas
  | results (issues : List Issue)
deriving DecidableEq

/-- The focus-area truncation of `fetchData` (`NgoIssuesView.tsx` 109-114):
when more than 30 areas are configured, only the first 30 are queried
(`areasToQuery.slice(0, 30)`, with a console warning); the rest are dropped. -/
def areasToQuery (focusAreas : List String) : List String :=
  if 30 < focusAreas.length then focusAreas.take 30 else focusAreas

/-- The `targetStatuses` filter of the issue query (`NgoIssuesView.tsx` 116):
only `"pending"` and `"in-progress"` issues are fetched. -/
def actionable (i : Issue) : Bool :=
  i.status == IssueStatus.pending || i.status == IssueStatus.inProgress

/-- The document filter of the issue query (`NgoIssuesView.tsx` 120-126):
`where("category", "in", areas)` and `where("status", "in", targetStatuses)`.
Every field the snapshot-validation loop (lines 135-139) requires is total in
this embedding, so the validation admits every document. -/
def issuesFilter (areas : List String) (docs : List Issue) : List Issue :=
  docs.filter (fun i => decide (i.category ∈ areas) && actionable i)

/-- The full issue query (`NgoIssuesView.tsx` 120-126): the filtered
documents ordered by `timestamp` descending and capped by `limit(50)`. -/
def issuesQuery (areas : List String) (docs : List Issue) : List Issue :=
  (List.insertionSort (fun a b => b.timestamp ≤ a.timestamp)
    (issuesFilter areas docs)).take 50

/-- `fetchData` of `NgoIssuesView.tsx` (lines 74-156): profile lookup, the
`focusAreas || []` default (line 90), the empty-focus-areas early return, and
the issue query over the first at-most-30 areas. -/
def fetchData (profile : Option NgoProfileData) (docs : List Issue) : FetchOutcome :=
  match profile with
  | none => .profileMissing
  | some p =>
      let fetchedFocusAreas := p.focusAreas.getD []
      if fetchedFocusAreas.length = 0 then .noFocusAreas
      else .results (issuesQuery (areasToQuery fetchedFocusAreas) docs)

/-- Descending-timestamp comparisons are total (for `List.sorted_insertionSort`). -/
instance : IsTotal Issue (fun a b => b.timestamp ≤ a.timestamp) :=
  ⟨fun a b => Nat.le_total b.timestamp a.timestamp⟩

/-- Descending-timestamp comparisons are transitive. -/
instance : IsTrans Issue (fun a b => b.timestamp ≤ a.timestamp) :=
  ⟨fun _ _ _ h1 h2 => Nat.le_trans h2 h1⟩

/-- A two-spot open opportunity with no signups (sample document). -/
def opp2 : Opportunity :=
  { id := "opp2", title := "Beach Cleanup", description := "d", category := "environment"
    location := "beach", date := "2024-05-01", time := "09:00", spots := 2
    orgId := "ngo1", orgName := "Green NGO", createdAt := 1
    status := .open', signedUpVolunteers := [] }

/-- A one-spot opportunity whose stored document already contains "bob"
(sample document for the stale-read scenario). -/
def oppBob1 : Opportunity :=
  { id := "opp1", title := "Soup Kitchen", description := "d", category := "social welfare"
    location := "kitchen", date := "2024-05-02", time := "10:00", spots := 1
    orgId := "ngo1", orgName := "Green NGO", createdAt := 2
    status := .open', signedUpVolunteers := ["bob"] }

/-- A full two-spot opportunity signed up by "bob" and "carol"
(sample document). -/
def oppFull2 : Opportunity :=
  { id := "opp3", title := "Tree Planting", description := "d", category := "environment"
    location := "park", date := "2024-05-03", time := "08:00", spots := 2
    orgId := "ngo1", orgName := "Green NGO", createdAt := 3
    status := .full, signedUpVolunteers := ["bob", "carol"] }

/-- A demonstration operation sequence for the capacity invariant. -/
def opsDemo : List OppOp :=
  [.signUp "alice", .signUp "bob", .signUp "carol",
   .cancelSignUp "alice", .signUp "carol", .signUp "dave"]

/-- A one-spot open opportunity with no signups (sample document). -/
def opp1Empty : Opportunity :=
  { id := "opp0", title := "Food Drive", description := "d", category := "social welfare"
    location := "hall", date := "2024-05-04", time := "11:00", spots := 1
    orgId := "ngo1", orgName := "Green NGO", createdAt := 4
    status := .open', signedUpVolunteers := [] }

/-- Two signUp calls that both read the mount-time fetched copy of
`opp1Empty`: both volunteers loaded the page while the opportunity was still
empty, so the second call runs its guards on a copy that is stale by the time
it commits. -/
def staleDemo : List OppCall :=
  [.signUpWith "bob" opp1Empty.spots opp1Empty.signedUpVolunteers,
   .signUpWith "alice" opp1Empty.spots opp1Empty.signedUpVolunteers]

/-- An available food donation with no claim data (sample document). -/
def dAvail : FoodDonation :=
  { id := "don1", restaurantId := "rest1", restaurantName := "Resto One"
    foodType := "Rice", quantity := "5 kg", pickupLocation := "Main St"
    pickupInstructions := none, bestBefore := none, status := .available
    createdAt := 10, claimedByVolunteerId := none, volunteerName := none
    claimedAt := none, volunteerPickupNotes := none, volunteerPhoneNumber := none }

/-- A donation already claimed by volunteer "vol0" (sample document). -/
def dClaimed : FoodDonation :=
  { id := "don2", restaurantId := "rest1", restaurantName := "Resto One"
    foodType := "Bread", quantity := "20 loaves", pickupLocation := "Main St"
    pickupInstructions := some "back door", bestBefore := some 99, status := .claimed
    createdAt := 11, claimedByVolunteerId := some "vol0", volunteerName := some "Vol Zero"
    claimedAt := some 12, volunteerPickupNotes := some "by 6pm"
    volunteerPhoneNumber := some "98000000" }

/-- A food request already accepted by restaurant "rest1" (sample document). -/
def reqAccepted : FoodRequest :=
  { id := "req1", ngoId := "ngo1", foodType := "Rice", quantity := 10
    description := "weekly", status := .accepted, createdAt := 5
    ngoName := some "Green NGO", restaurantId := some "rest1"
    restaurantName := some "Resto One", updatedAt := some 6 }

/-- A pending food request (sample document). -/
def reqPending : FoodRequest :=
  { id := "req2", ngoId := "ngo1", foodType := "Dal", quantity := 3
    description := "urgent", status := .pending, createdAt := 7
    ngoName := some "Green NGO", restaurantId := none
    restaurantName := none, updatedAt := none }

/-- Thirty-one focus-area category names. -/
def fa31 : List String :=
  ["c01", "c02", "c03", "c04", "c05", "c06", "c07", "c08", "c09", "c10",
   "c11", "c12", "c13", "c14", "c15", "c16", "c17", "c18", "c19", "c20",
   "c21", "c22", "c23", "c24", "c25", "c26", "c27", "c28", "c29", "c30",
   "c31"]

/-- A pending issue whose category is the thirty-first focus area of `fa31`. -/
def i31 : Issue :=
  { id := "i31", title := "Broken drain", description := "d", category := "c31"
    location := "ward 3", imageUrl := none, reporterId := "cit1", timestamp := 20
    status := .pending, latitude := none, longitude := none, updatedAt := none }

/-- A pending education-category issue (sample document). -/
def eduIssue : Issue :=
  { id := "iedu", title := "School roof", description := "d", category := "education"
    location := "ward 5", imageUrl := none, reporterId := "cit2", timestamp := 21
    status := .pending, latitude := none, longitude := none, updatedAt := none }

/-- A pending issue whose category is the first focus area of `fa31`. -/
def i01 : Issue :=
  { id := "i01", title := "Street light", description := "d", category := "c01"
    location := "ward 1", imageUrl := none, reporterId := "cit3", timestamp := 22
    status := .pending, latitude := none, longitude := none, updatedAt := none }

/-- Appending a fresh volunteer grows the array by exactly one. -/
theorem arrayUnion_length_of_not_mem (x : String) (l : List String) (h : x ∉ l) :
    (arrayUnion x l).length = l.length + 1 := by
  simp [arrayUnion, h]

/-- One sequential operation preserves the opportunity capacity bound and
never changes `spots`. -/
theorem oppStep_inv (o : Opportunity) (op : OppOp)
    (h : o.signedUpVolunteers.length ≤ o.spots) :
    (oppStep o op).spots = o.spots ∧
    (oppStep o op).signedUpVolunteers.length ≤ o.spots := by
  cases op with
  | signUp uid =>
      by_cases h1 : uid ∈ o.signedUpVolunteers
      · simp [oppStep, signUpWrite, handleSignUp, h1, h]
      · by_cases h2 : o.spots ≤ o.signedUpVolunteers.length
        · simp [oppStep, signUpWrite, handleSignUp, h1, h2, h]
        · refine ⟨by simp [oppStep, signUpWrite, handleSignUp, h1, h2, applySignUpPayload], ?_⟩
          simp only [oppStep, signUpWrite, handleSignUp, if_neg h1, if_neg h2,
            applySignUpPayload]
          rw [arrayUnion_length_of_not_mem _ _ h1]
          exact Nat.succ_le_of_lt (Nat.lt_of_not_le h2)
  | cancelSignUp uid =>
      refine ⟨rfl, ?_⟩
      simpa [oppStep, handleCancelSignUp, arrayRemove] using
        le_trans (List.length_filter_le _ _) h

/-- Each `oppStep` is the `oppCallStep` of the fresh-read invocation. -/
theorem oppStep_eq_freshCall (o : Opportunity) (op : OppOp) :
    oppStep o op = oppCallStep o (freshCall o op) := by
  cases op <;> rfl

/-- Helper: in fresh-read sequential runs (`runOps`, where every call reads
the current document) both the number of distinct members and the raw array
length of `signedUpVolunteers` stay at most `spots` after any prefix of
operations. -/
theorem runOps_capacity_bound (o : Opportunity) (ops : List OppOp)
    (h : o.signedUpVolunteers.length ≤ o.spots) :
    (runOps o ops).signedUpVolunteers.toFinset.card ≤ (runOps o ops).spots ∧
    (runOps o ops).signedUpVolunteers.length ≤ (runOps o ops).spots := by
  suffices hlen : (runOps o ops).signedUpVolunteers.length ≤ (runOps o ops).spots by
    exact ⟨le_trans (List.toFinset_card_le _) hlen, hlen⟩
  induction ops generalizing o with
  | nil => exact h
  | cons op ops ih =>
      have hstep := oppStep_inv o op h
      have := ih (oppStep o op) (hstep.1 ▸ hstep.2)
      simpa [runOps, List.foldl_cons] using this

/-- C1 counterexample: the handler receives the fetched page copy, not a
fresh read, and its commit is unconditional on the store, so a sequence of
two signUp calls violates the bound.  Both "bob" and "alice" read the
mount-time copy of the one-spot `opp1Empty`; after the first call the store
holds one volunteer (within `spots = 1`), and the second signUp call — whose
guards pass on its stale empty copy — pushes the stored set to two members
and distinct cardinality two, exceeding `spots`.  This refutes both the
at-every-point bound and the clause that no signUp call ever makes the
cardinality exceed `spots`. -/
theorem capacity_exceeded_by_stale_read_counterexample :
    opp1Empty.spots = 1 ∧ opp1Empty.signedUpVolunteers = [] ∧
    (runCalls opp1Empty (List.take 1 staleDemo)).signedUpVolunteers.length = 1 ∧
    (runCalls opp1Empty staleDemo).signedUpVolunteers.length = 2 ∧
    (runCalls opp1Empty staleDemo).signedUpVolunteers.toFinset.card = 2 ∧
    (runCalls opp1Empty staleDemo).spots = 1 := by decide

/-- C1 amended: each signUp call enforces the capacity bound only against the
fetched copy it read — a commit happens precisely under the read-relative
guards, so `signUpWrite` producing a write implies the read copy showed the
actor absent and strictly fewer signups than the read `spots` — and in runs
where every call reads the current document (`runOps`), the cardinality and
the length of `signedUpVolunteers` stay at most `spots` at every point (any
prefix of operations is itself a value of `ops`).  Because the commit is
unconditional on the stored document, a call acting on a stale fetched copy
can exceed `spots`, as the counterexample shows. -/
theorem capacity_bound_fresh_reads_only (o : Opportunity) (ops : List OppOp)
    (uid : String) (readSpots : Nat) (readSet : List String) (store : Opportunity)
    (h : o.signedUpVolunteers.length ≤ o.spots)
    (hc : (signUpWrite uid readSpots readSet store).isSome = true) :
    ((runOps o ops).signedUpVolunteers.toFinset.card ≤ (runOps o ops).spots ∧
      (runOps o ops).signedUpVolunteers.length ≤ (runOps o ops).spots) ∧
    uid ∉ readSet ∧ readSet.length < readSpots := by
  refine ⟨runOps_capacity_bound o ops h, ?_, ?_⟩
  · intro hmem
    simp [signUpWrite, handleSignUp, hmem] at hc
  · by_contra hge
    have hge := Nat.le_of_not_lt hge
    by_cases hmem : uid ∈ readSet
    · simp [signUpWrite, handleSignUp, hmem] at hc
    · simp [signUpWrite, handleSignUp, hmem, hge] at hc

/-- Witness for the amended C1 statement on a concrete opportunity, operation
sequence and committing call. -/
theorem capacity_bound_fresh_reads_only_witness :
    (opp2.signedUpVolunteers.length ≤ opp2.spots ∧
      (signUpWrite "alice" 2 [] opp2).isSome = true) ∧
    (((runOps opp2 opsDemo).signedUpVolunteers.toFinset.card
          ≤ (runOps opp2 opsDemo).spots ∧
        (runOps opp2 opsDemo).signedUpVolunteers.length
          ≤ (runOps opp2 opsDemo).spots) ∧
      "alice" ∉ ([] : List String) ∧ ([] : List String).length < 2) :=
  ⟨⟨by decide, by decide⟩,
    capacity_bound_fresh_reads_only opp2 opsDemo "alice" 2 [] opp2
      (by decide) (by decide)⟩

/-- C3 counterexample: the stored document (`oppBob1`, already signed up by
"bob") no longer matches the state the handler read (an empty array), yet the
commit still happens — `signUpWrite` produces a write, there is no conflict
re-check, no retry and no Conflict outcome (the `SignUpStep` type, which lists
every control-flow exit of the source, has no such constructor), and the
written document holds two volunteers against one spot. -/
theorem signUp_no_conflict_check_counterexample :
    oppBob1.signedUpVolunteers ≠ ([] : List String) ∧
    signUpWrite "alice" 1 [] oppBob1
      = some { oppBob1 with signedUpVolunteers := ["bob", "alice"], status := .full } ∧
    oppBob1.spots = 1 := by decide

/-- C3 amended: whenever the local guards computed from the (possibly stale)
read state pass, `handleSignUp` commits unconditionally to whatever the store
currently holds — an atomic `arrayUnion` plus an optional `status := "full"`
derived from the read state — with no precondition matching the read, no
re-check, no retry, and no Conflict error. -/
theorem signUp_commit_unconditional (uid : String) (readSpots : Nat)
    (readSet : List String) (store : Opportunity)
    (h1 : uid ∉ readSet) (h2 : readSet.length < readSpots) :
    signUpWrite uid readSpots readSet store
      = some { store with
          signedUpVolunteers := arrayUnion uid store.signedUpVolunteers
          status := if readSpots ≤ readSet.length + 1 then OppStatus.full
                    else store.status } := by
  simp [signUpWrite, handleSignUp, h1, Nat.not_le.mpr h2, applySignUpPayload,
    apply_ite (fun s => ({ store with
      signedUpVolunteers := arrayUnion uid store.signedUpVolunteers,
      status := s } : Opportunity))]

/-- Witness for the amended C3 statement at a concrete stale read. -/
theorem signUp_commit_unconditional_witness :
    ("alice" ∉ (["x"] : List String) ∧ (["x"] : List String).length < 2) ∧
    signUpWrite "alice" 2 ["x"] oppBob1
      = some { oppBob1 with
          signedUpVolunteers := arrayUnion "alice" oppBob1.signedUpVolunteers
          status := if 2 ≤ (["x"] : List String).length + 1 then OppStatus.full
                    else oppBob1.status } :=
  ⟨⟨by decide, by decide⟩,
    signUp_commit_unconditional "alice" 2 ["x"] oppBob1 (by decide) (by decide)⟩

/-- C4 counterexample: "alice" is not signed up on `oppFull2`, yet
`handleCancelSignUp` does not fail with NotSignedUp — it performs its write,
leaving the set as it was and forcing the status of the full opportunity from
`full` to `open`. -/
theorem cancel_nonmember_counterexample :
    "alice" ∉ oppFull2.signedUpVolunteers ∧
    handleCancelSignUp "alice" oppFull2 = { oppFull2 with status := .open' } ∧
    (handleCancelSignUp "alice" oppFull2).status ≠ oppFull2.status := by decide

/-- C4 amended: `handleCancelSignUp` removes the actor and unconditionally
resets `status` to `open`, but performs no membership check: invoked for an
actor not in `signedUpVolunteers` it still succeeds, leaving the volunteer
array unchanged and setting `status` to `open` (the page only renders the
Cancel button when `isUserSignedUp` holds, so the non-member call is reachable
only through a stale view). -/
theorem cancel_unconditional (uid : String) (o : Opportunity)
    (h : uid ∉ o.signedUpVolunteers) :
    handleCancelSignUp uid o
      = { o with signedUpVolunteers := arrayRemove uid o.signedUpVolunteers
                 status := .open' } ∧
    (handleCancelSignUp uid o).signedUpVolunteers = o.signedUpVolunteers ∧
    (handleCancelSignUp uid o).status = .open' := by
  refine ⟨rfl, ?_, rfl⟩
  simp only [handleCancelSignUp, arrayRemove]
  refine List.filter_eq_self.mpr (fun a ha => ?_)
  simp only [bne_iff_ne, ne_eq]
  exact fun e => h (e ▸ ha)

/-- C2 counterexample: the successful claim commit does not write exactly the
five fields the claim lists — it also writes `volunteerName` (resolved from
the profile / display-name / email fallback), so a field outside the claimed
payload changes: the stored `volunteerName` of `dAvail` was `none` and the
written document carries `some "Alice Vol"`. -/
theorem claim_writes_volunteerName_counterexample :
    dAvail.volunteerName = none ∧
    claimWrite (handleClaimFood "vol1" "Alice Vol" "by 7pm" "98000001" 100 (some dAvail))
      = some { dAvail with
          status := .claimed
          claimedByVolunteerId := some "vol1"
          volunteerName := some "Alice Vol"
          claimedAt := some 100
          volunteerPickupNotes := some "by 7pm"
          volunteerPhoneNumber := some "98000001" } ∧
    (claimWrite (handleClaimFood "vol1" "Alice Vol" "by 7pm" "98000001" 100
        (some dAvail))).map FoodDonation.volunteerName ≠ some dAvail.volunteerName := by
  decide

/-- C2 amended: `handleClaimFood` performs a fresh read immediately before
committing; when that read shows `status = available` it commits exactly the
six fields `status`, `claimedByVolunteerId`, `volunteerName`, `claimedAt`,
`volunteerPickupNotes`, `volunteerPhoneNumber` (every other field unchanged),
and when the read shows any non-available status it fails with the single
thrown error, without retrying and without writing. -/
theorem claim_commit_fields (uid name notes phone : String) (now : Nat)
    (d : FoodDonation) (ha : d.status = .available) :
    handleClaimFood uid name notes phone now (some d)
      = .claimed { d with
          status := .claimed
          claimedByVolunteerId := some uid
          volunteerName := some name
          claimedAt := some now
          volunteerPickupNotes := some notes
          volunteerPhoneNumber := some phone } ∧
    (∀ e : FoodDonation, e.status ≠ .available →
        handleClaimFood uid name notes phone now (some e) = .notAvailable ∧
        claimWrite (handleClaimFood uid name notes phone now (some e)) = none) := by
  refine ⟨by simp [handleClaimFood, ha], fun e he => ?_⟩
  simp [handleClaimFood, he, claimWrite]

/-- Witness for the amended C2 statement at a concrete available donation. -/
theorem claim_commit_fields_witness :
    dAvail.status = .available ∧
    (handleClaimFood "vol1" "Alice Vol" "by 7pm" "98000001" 100 (some dAvail)
        = .claimed { dAvail with
            status := .claimed
            claimedByVolunteerId := some "vol1"
            volunteerName := some "Alice Vol"
            claimedAt := some 100
            volunteerPickupNotes := some "by 7pm"
            volunteerPhoneNumber := some "98000001" } ∧
      (∀ e : FoodDonation, e.status ≠ .available →
          handleClaimFood "vol1" "Alice Vol" "by 7pm" "98000001" 100 (some e)
              = .notAvailable ∧
          claimWrite (handleClaimFood "vol1" "Alice Vol" "by 7pm" "98000001" 100
              (some e)) = none)) :=
  ⟨by decide, claim_commit_fields "vol1" "Alice Vol" "by 7pm" "98000001" 100 dAvail rfl⟩

/-- C10: claiming a missing donation and claiming a non-available donation
take the same throw (the source raises one `Error` with one message,
"This donation is no longer available or does not exist.", for
`!donationSnap.exists() || status !== "available"`): both produce the single
`notAvailable` outcome — no distinct NotFound — and in that failure case the
source reaches no `updateDoc`, so no write is performed. -/
theorem claim_missing_not_distinguished (uid name notes phone : String) (now : Nat)
    (d : FoodDonation) (h : d.status ≠ .available) :
    handleClaimFood uid name notes phone now none = .notAvailable ∧
    handleClaimFood uid name notes phone now none
      = handleClaimFood uid name notes phone now (some d) ∧
    claimWrite (handleClaimFood uid name notes phone now none) = none := by
  simp [handleClaimFood, h, claimWrite]

/-- Witness for C10 at a concrete claimed donation. -/
theorem claim_missing_not_distinguished_witness :
    dClaimed.status ≠ .available ∧
    (handleClaimFood "vol1" "Alice Vol" "n" "98" 100 none = .notAvailable ∧
      handleClaimFood "vol1" "Alice Vol" "n" "98" 100 none
        = handleClaimFood "vol1" "Alice Vol" "n" "98" 100 (some dClaimed) ∧
      claimWrite (handleClaimFood "vol1" "Alice Vol" "n" "98" 100 none) = none) :=
  ⟨by decide, claim_missing_not_distinguished "vol1" "Alice Vol" "n" "98" 100 dClaimed
    (by decide)⟩

/-- C5 counterexample: `markDonationUnavailable` applied to the already-claimed
donation `dClaimed` does not fail NotAvailable and does not leave the document
unchanged — it overwrites `status` to `unavailable`.  (The operation takes no
caller identity at all, so no NotOwner check exists either.) -/
theorem markUnavailable_on_claimed_counterexample :
    dClaimed.status = .claimed ∧
    (markDonationUnavailable dClaimed).status = .unavailable ∧
    markDonationUnavailable dClaimed ≠ dClaimed := by decide

/-- C5 amended: `markDonationUnavailable` is one unconditional status write —
it sets `status := unavailable` on any donation, claimed or not, owned or not,
changing no other field and never failing; availability and ownership are
enforced only by the page, which renders the Mark-as-Unavailable button solely
on documents from the `availableDonations` filter of the own-donation fetch,
and every such document has `status = available` and the callers
`restaurantId`. -/
theorem markUnavailable_unconditional (d : FoodDonation) (uid : String)
    (docs : List FoodDonation) (e : FoodDonation)
    (he : e ∈ availableDonations (fetchMyDonations uid docs)) :
    (markDonationUnavailable d).status = .unavailable ∧
    { markDonationUnavailable d with status := d.status } = d ∧
    e.status = .available ∧ e.restaurantId = uid := by
  refine ⟨rfl, rfl, ?_, ?_⟩
  · have := (List.mem_filter.mp he).2
    simpa [beq_iff_eq] using this
  · have h1 : e ∈ fetchMyDonations uid docs := (List.mem_filter.mp he).1
    have h2 : e ∈ List.insertionSort (fun a b => b.createdAt ≤ a.createdAt)
        (docs.filter (fun x => x.restaurantId == uid)) :=
      List.mem_of_mem_take h1
    have h3 : e ∈ docs.filter (fun x => x.restaurantId == uid) :=
      (List.perm_insertionSort _ _).mem_iff.mp h2
    have := (List.mem_filter.mp h3).2
    simpa [beq_iff_eq] using this

/-- Witness for the amended C5 statement on a concrete dashboard state. -/
theorem markUnavailable_unconditional_witness :
    dAvail ∈ availableDonations (fetchMyDonations "rest1" [dClaimed, dAvail]) ∧
    ((markDonationUnavailable dClaimed).status = .unavailable ∧
      { markDonationUnavailable dClaimed with status := dClaimed.status } = dClaimed ∧
      dAvail.status = .available ∧ dAvail.restaurantId = "rest1") :=
  ⟨by decide, markUnavailable_unconditional dClaimed "rest1" [dClaimed, dAvail] dAvail
    (by decide)⟩

/-- C9 counterexample: a FoodRequest already `accepted` is not terminal for the
code — `handleVerification` has no still-pending precondition, so invoking it
with a reject decision overwrites the status of the terminal request. -/
theorem verification_overwrites_terminal_counterexample :
    reqAccepted.status = .accepted ∧
    (handleVerification "rest2" "Resto Two" .rejected 8 reqAccepted).status
      = .rejected := by decide

/-- C9 amended: `handleVerification` writes the decided status (only
`accepted` or `rejected` — never `pending` — are expressible) together with the
identity of the acting restaurant, unconditionally: it never reads the
document first, so nothing in the operation prevents re-transitioning an
already-decided request.  The pending-only restriction comes solely from the
dashboard fetch, whose every result has `status = pending`; a decision on an
already-decided request is reachable only through a stale list. -/
theorem verification_unconditional (uid uname : String) (dec : VerDecision)
    (now : Nat) (r : FoodRequest) (docs : List FoodRequest) (q : FoodRequest)
    (hq : q ∈ fetchRequests docs) :
    handleVerification uid uname dec now r
      = { r with status := dec.toStatus, restaurantId := some uid
                 restaurantName := some uname, updatedAt := some now } ∧
    (handleVerification uid uname dec now r).status ≠ .pending ∧
    (handleVerification uid uname dec now r).restaurantId = some uid ∧
    q.status = .pending := by
  refine ⟨rfl, ?_, rfl, ?_⟩
  · cases dec <;> simp [handleVerification, VerDecision.toStatus]
  · have h1 : q ∈ List.insertionSort (fun a b => b.createdAt ≤ a.createdAt)
        (docs.filter (fun x => x.status == ReqStatus.pending)) :=
      List.mem_of_mem_take hq
    have h2 : q ∈ docs.filter (fun x => x.status == ReqStatus.pending) :=
      (List.perm_insertionSort _ _).mem_iff.mp h1
    have := (List.mem_filter.mp h2).2
    simpa [beq_iff_eq] using this

/-- Witness for the amended C9 statement on a concrete dashboard state. -/
theorem verification_unconditional_witness :
    reqPending ∈ fetchRequests [reqAccepted, reqPending] ∧
    (handleVerification "rest2" "Resto Two" .accepted 9 reqAccepted
        = { reqAccepted with
            status := VerDecision.toStatus .accepted
            restaurantId := some "rest2"
            restaurantName := some "Resto Two"
            updatedAt := some 9 } ∧
      (handleVerification "rest2" "Resto Two" .accepted 9 reqAccepted).status
          ≠ .pending ∧
      (handleVerification "rest2" "Resto Two" .accepted 9 reqAccepted).restaurantId
          = some "rest2" ∧
      reqPending.status = .pending) :=
  ⟨by decide, verification_unconditional "rest2" "Resto Two" .accepted 9 reqAccepted
    [reqAccepted, reqPending] reqPending (by decide)⟩

/-- Witness for the amended C4 statement at a concrete non-member. -/
theorem cancel_unconditional_witness :
    "alice" ∉ oppFull2.signedUpVolunteers ∧
    (handleCancelSignUp "alice" oppFull2
        = { oppFull2 with
            signedUpVolunteers := arrayRemove "alice" oppFull2.signedUpVolunteers
            status := .open' } ∧
      (handleCancelSignUp "alice" oppFull2).signedUpVolunteers
          = oppFull2.signedUpVolunteers ∧
      (handleCancelSignUp "alice" oppFull2).status = .open') :=
  ⟨by decide, cancel_unconditional "alice" oppFull2 (by decide)⟩

/-- C6 counterexample: processing the same payment session id "cs_1" (amount
500) through two fresh mounts of the Success page — the second run starting
from the reset `idle` component state, as a page reload does — increments
`totalDonated` twice: starting from 0 it ends at 1000, not at the single
increment 500 the claim requires. -/
theorem increment_reprocessed_counterexample :
    (updateDonationCount false (some "u1") .idle (some "cs_1") (some 500)
        (updateDonationCount false (some "u1") .idle (some "cs_1") (some 500) 0).2).2
      = 1000 ∧ (1000 : Int) ≠ (500 : Int) := by decide

/-- C6 amended: the increment is guarded only per component mount — once
`updateStatus` has left `idle`, a re-run inside the same mount changes
nothing — but the session id is only tested for presence and never recorded,
so re-processing the same session id from a fresh mount (page reload or
retry) applies a second increment: per-session idempotence does not hold. -/
theorem increment_once_per_mount_only (st : UpdateStatus) (u sid : String)
    (a t : Int) (hst : st ≠ .idle) (ha : 0 < a) :
    updateDonationCount false (some u) st (some sid) (some a) t = (st, t) ∧
    (updateDonationCount false (some u) .idle (some sid) (some a) t).2 = t + a ∧
    (updateDonationCount false (some u) .idle (some sid) (some a)
        (updateDonationCount false (some u) .idle (some sid) (some a) t).2).2
      = t + a + a := by
  have hle : ¬ a ≤ 0 := Int.not_le.mpr ha
  refine ⟨?_, ?_, ?_⟩ <;> simp [updateDonationCount, hst, hle]

/-- Witness for the amended C6 statement at a concrete session. -/
theorem increment_once_per_mount_only_witness :
    ((UpdateStatus.success ≠ UpdateStatus.idle) ∧ (0 : Int) < 500) ∧
    (updateDonationCount false (some "u1") .success (some "cs_1") (some 500) 0
        = (.success, 0) ∧
      (updateDonationCount false (some "u1") .idle (some "cs_1") (some 500) 0).2
        = 0 + 500 ∧
      (updateDonationCount false (some "u1") .idle (some "cs_1") (some 500)
          (updateDonationCount false (some "u1") .idle (some "cs_1") (some 500) 0).2).2
        = 0 + 500 + 500) :=
  ⟨⟨by decide, by decide⟩,
    increment_once_per_mount_only .success "u1" "cs_1" 500 0 (by decide) (by decide)⟩

/-- C7 counterexample: a reviewer with the 31 focus areas `fa31` and the
pending issue `i31` whose category `"c31"` is a member of that set — yet the
query slices the areas to the first 30, so `fetchData` returns no issue at
all: category membership in the focus-area set does not imply visibility. -/
theorem eligibility_31st_category_counterexample :
    i31.category ∈ fa31 ∧ actionable i31 = true ∧
    fetchData (some { focusAreas := some fa31, orgName := none }) [i31]
      = .results [] := by decide

/-- C7 amended: the category-eligibility filter of the issue query admits a
stored actionable issue exactly when its category belongs to the queried
focus areas, which for a reviewer with at most 30 focus areas is the full
focus-area set (so the education/health examples hold); beyond 30 only the
first 30 areas count.  An empty focus-area set takes the distinct
no-focus-areas exit of `fetchData`, separate from both the profile-missing
exit and an empty query result. -/
theorem category_eligibility (fa : List String) (docs : List Issue) (i : Issue)
    (h30 : fa.length ≤ 30) (hi : i ∈ docs) (hact : actionable i = true) :
    (i ∈ issuesFilter (areasToQuery fa) docs ↔ i.category ∈ fa) ∧
    fetchData (some { focusAreas := some [], orgName := none }) docs
      = .noFocusAreas ∧
    fetchData none docs = .profileMissing := by
  refine ⟨?_, rfl, rfl⟩
  have hq : areasToQuery fa = fa := by simp [areasToQuery, Nat.not_lt.mpr h30]
  rw [issuesFilter, hq]
  simp [List.mem_filter, hi, hact]

/-- Witness for the amended C7 statement: the education issue is eligible for
the education+health reviewer.  (Instantiating the same theorem at
`["health"]` yields the invisibility direction.) -/
theorem category_eligibility_witness :
    ((["education", "health"] : List String).length ≤ 30 ∧
      eduIssue ∈ [eduIssue] ∧ actionable eduIssue = true) ∧
    ((eduIssue ∈ issuesFilter (areasToQuery ["education", "health"]) [eduIssue]
        ↔ eduIssue.category ∈ ["education", "health"]) ∧
      fetchData (some { focusAreas := some [], orgName := none }) [eduIssue]
        = .noFocusAreas ∧
      fetchData none [eduIssue] = .profileMissing) :=
  ⟨⟨by decide, by decide, by decide⟩,
    category_eligibility ["education", "health"] [eduIssue] eduIssue
      (by decide) (by decide) (by decide)⟩

/-- C8 counterexample: with the 31-element focus-area set `fa31` the code does
not partition into batches and query them all — it queries only the first 30
areas, so the eligible category `"c31"` is dropped from the query outright. -/
theorem fanout_drops_categories_counterexample :
    30 < fa31.length ∧ "c31" ∈ fa31 ∧ "c31" ∉ areasToQuery fa31 := by decide

/-- C8 amended: when a reviewer has more than 30 focus areas the code issues a
single query over the first 30 only (the remaining categories are dropped,
with a console warning, rather than batched); that one query is ordered by
issue timestamp descending and capped at 50 results, and every returned issue
is actionable with a category among the first 30 areas. -/
theorem over30_first30_only (fa : List String) (docs : List Issue) (j : Issue)
    (h : 30 < fa.length) (hj : j ∈ issuesQuery (areasToQuery fa) docs) :
    areasToQuery fa = fa.take 30 ∧
    (issuesQuery (areasToQuery fa) docs).length ≤ 50 ∧
    List.Sorted (fun a b : Issue => b.timestamp ≤ a.timestamp)
      (issuesQuery (areasToQuery fa) docs) ∧
    j.category ∈ fa.take 30 ∧ actionable j = true := by
  have hq : areasToQuery fa = fa.take 30 := by simp [areasToQuery, h]
  have hmem : j ∈ issuesFilter (areasToQuery fa) docs := by
    have h1 : j ∈ List.insertionSort (fun a b => b.timestamp ≤ a.timestamp)
        (issuesFilter (areasToQuery fa) docs) := List.mem_of_mem_take hj
    exact (List.perm_insertionSort _ _).mem_iff.mp h1
  have hflt := (List.mem_filter.mp hmem).2
  rw [Bool.and_eq_true] at hflt
  refine ⟨hq, List.length_take_le _ _, ?_, ?_, hflt.2⟩
  · exact List.Pairwise.sublist (List.take_sublist _ _)
      (List.sorted_insertionSort _ _)
  · have := of_decide_eq_true hflt.1
    rwa [hq] at this

/-- Witness for the amended C8 statement: issue `i01` (category `"c01"`) is
returned for the 31-area reviewer. -/
theorem over30_first30_only_witness :
    (30 < fa31.length ∧ i01 ∈ issuesQuery (areasToQuery fa31) [i01]) ∧
    (areasToQuery fa31 = fa31.take 30 ∧
      (issuesQuery (areasToQuery fa31) [i01]).length ≤ 50 ∧
      List.Sorted (fun a b : Issue => b.timestamp ≤ a.timestamp)
        (issuesQuery (areasToQuery fa31) [i01]) ∧
      i01.category ∈ fa31.take 30 ∧ actionable i01 = true) :=
  ⟨⟨by decide, by decide⟩,
    over30_first30_only fa31 [i01] i01 (by decide) (by decide)⟩

end MeroSamaj
